import Mathlib

/-!
Verification development for the `asciiground` repository: a shallow
embedding in Lean 4 of the pattern-generation engine (seeded random,
Perlin fractal noise, rain simulation, static cell noise) and of the
render-coordination layer (region calculation, content hashing, redraw
suppression, option updates), together with theorems settling the
specification claims.

Numbers are modelled as `ℚ` (JavaScript doubles are treated as exact
rationals; every concrete evaluation below stays well inside the range
where double arithmetic is exact or the margin dwarfs rounding error).
JavaScript `undefined` propagation on array indexing is modelled with
`Option`.
-/

namespace AsciiGround


/-- JavaScript `Math.floor` on a rational (`Rat.floor` is used rather
than the `⌊⌋` notation so that concrete values evaluate by `decide`;
`jsFloor_eq` bridges to `⌊⌋`). -/
def jsFloor (q : ℚ) : ℤ := q.floor

/-- JavaScript number-to-integer truncation (toward zero), as used by the
`%` remainder operator and `ToInt32`: `Int.tdiv` rounds toward zero and
the denominator of a `ℚ` is positive. -/
def jsTrunc (q : ℚ) : ℤ := q.num.tdiv q.den

/-- JavaScript `%` remainder on numbers: `a % n = a - n * trunc (a / n)`.
(For `n = 0` JavaScript yields `NaN`; the model yields `a`, a case never
reached by the code below, whose modulus is the constant `2147483647`.) -/
def jsRem (a n : ℚ) : ℚ := a - n * (jsTrunc (a / n) : ℚ)

/-! ## Seeded random generator — `src/utils/seeded-random.ts`
`createSeededRandom(seed)` closes over `state = seed === 0 ? 1 : seed`
and on each call performs `state = (state * 16807) % 2147483647` and
returns `state / 2147483647`. -/

/-- Initial LCG state: a zero seed is replaced by 1. -/
def seedInit (seed : ℚ) : ℚ := if seed = 0 then 1 else seed

/-- One LCG step: `state = (state * 16807) % 2147483647`. -/
def lcgStep (state : ℚ) : ℚ := jsRem (state * 16807) 2147483647

/-- State after the (k+1)-th call to the generator created with initial
state `s0` (k = 0 is the first call). -/
def lcgState (s0 : ℚ) : ℕ → ℚ
  | 0 => lcgStep s0
  | k + 1 => lcgStep (lcgState s0 k)

/-- Value returned by the (k+1)-th call of the seeded generator. -/
def randAt (s0 : ℚ) (k : ℕ) : ℚ := lcgState s0 k / 2147483647

/-! ## Permutation table — `PerlinNoisePattern._generatePermutations`
A 256-entry identity table is shuffled by a seeded Fisher–Yates loop
(`for (let i = 255; i > 0; i--)`) and then concatenated with itself. -/

/-- One Fisher–Yates swap at position `i` (the random draw index is `k`):
`j = Math.floor(randomizer() * (i + 1))`, then `table[i]` and `table[j]`
are swapped. Indexing out of range cannot occur for the seeds evaluated
here (the draw lies in `[0, 1)`), and is modelled by `getD`/`set`. -/
def fyShuffle (rnd : ℕ → ℚ) : ℕ → ℕ → List ℕ → List ℕ
  | 0, _, t => t
  | i + 1, k, t =>
      let j := (jsFloor (rnd k * ((i + 1 : ℕ) + 1 : ℚ))).toNat
      let ti := t.getD (i + 1) 0
      let tj := t.getD j 0
      fyShuffle rnd i (k + 1) ((t.set (i + 1) tj).set j ti)

/-- The 512-entry permutation table built from a seed: shuffle `[0..255]`
with the seeded generator, then concatenate the table with itself. -/
def generatePermutations (seed : ℚ) : List ℕ :=
  let t := fyShuffle (randAt (seedInit seed)) 255 0 (List.range 256)
  t ++ t

/-! ## Perlin noise core — `PerlinNoisePattern` -/

/-- Fade curve `t*t*t*(t*(t*6-15)+10)`. -/
def fade (t : ℚ) : ℚ := t * t * t * (t * (t * 6 - 15) + 10)

/-- Linear interpolation `a + t * (b - a)`. -/
def lerp (a b t : ℚ) : ℚ := a + t * (b - a)

/-- 3D gradient selection from the low 4 bits of the hash. -/
def gradient3D (hash : ℕ) (x y z : ℚ) : ℚ :=
  let h := hash % 16
  let u := if h < 8 then x else y
  let v := if h < 4 then y else if h = 12 ∨ h = 14 then x else z
  (if h % 2 = 0 then u else -u) + (if h / 2 % 2 = 0 then v else -v)

/-- Table lookup `perm[i]` (JavaScript indexing; all indices produced by
`noise3D` are `< 256`, within the 512-entry table). -/
def permAt (perm : List ℕ) (i : ℕ) : ℕ := perm.getD i 0

/-- Classic 3D Perlin noise, `PerlinNoisePattern._noise3D`, with the cell
coordinate masked to 8 bits (`Math.floor(x) & 255`, i.e. `emod 256` on
the two's-complement integer). -/
def noise3D (perm : List ℕ) (x y z : ℚ) : ℚ :=
  let X := ((jsFloor x).emod 256).toNat
  let Y := ((jsFloor y).emod 256).toNat
  let Z := ((jsFloor z).emod 256).toNat
  let xf := x - (jsFloor x : ℚ)
  let yf := y - (jsFloor y : ℚ)
  let zf := z - (jsFloor z : ℚ)
  let u := fade xf
  let v := fade yf
  let w := fade zf
  let a := (permAt perm X + Y) % 256
  let aa := (permAt perm a + Z) % 256
  let ab := (permAt perm ((a + 1) % 256) + Z) % 256
  let b := (permAt perm ((X + 1) % 256) + Y) % 256
  let ba := (permAt perm b + Z) % 256
  let bb := (permAt perm ((b + 1) % 256) + Z) % 256
  lerp
    (lerp
      (lerp (gradient3D (permAt perm aa) xf yf zf)
            (gradient3D (permAt perm ba) (xf - 1) yf zf) u)
      (lerp (gradient3D (permAt perm ab) xf (yf - 1) zf)
            (gradient3D (permAt perm bb) (xf - 1) (yf - 1) zf) u)
      v)
    (lerp
      (lerp (gradient3D (permAt perm ((aa + 1) % 256)) xf yf (zf - 1))
            (gradient3D (permAt perm ((ba + 1) % 256)) (xf - 1) yf (zf - 1)) u)
      (lerp (gradient3D (permAt perm ((ab + 1) % 256)) xf (yf - 1) (zf - 1))
            (gradient3D (permAt perm ((bb + 1) % 256)) (xf - 1) (yf - 1) (zf - 1)) u)
      v)
    w

/-- Accumulator loop of `PerlinNoisePattern._fractalNoise`: octaves are
summed with amplitude multiplied by `persistence` and frequency by
`lacunarity` each iteration; returns `(value, maxValue)` after running
the remaining `n` octaves. -/
def fractalAux (perm : List ℕ) (pers lac x y time : ℚ) :
    ℕ → ℚ → ℚ → ℚ → ℚ → ℚ × ℚ
  | 0, value, maxValue, _, _ => (value, maxValue)
  | n + 1, value, maxValue, amplitude, frequency =>
      fractalAux perm pers lac x y time n
        (value + noise3D perm (x * frequency) (y * frequency) (time * frequency) * amplitude)
        (maxValue + amplitude)
        (amplitude * pers)
        (frequency * lac)

/-- `PerlinNoisePattern._fractalNoise(x, y, time)`: accumulate `octaves`
octaves starting from `amplitude = 1`, `frequency = 1` and divide the
value by the amplitude sum. (With `octaves = 0` JavaScript computes
`0 / 0 = NaN`; the `ℚ` model yields `0`.) -/
def fractalNoise (perm : List ℕ) (pers lac : ℚ) (octaves : ℕ) (x y time : ℚ) : ℚ :=
  let r := fractalAux perm pers lac x y time octaves 0 0 1 1
  r.1 / r.2

/-! ## Specification-side formulation of fractal noise (for claim C1):
the sum of per-octave noise contributions and the sum of per-octave
amplitudes, with octave `i` sampled at frequency `lacunarity ^ i` and
weighted by amplitude `persistence ^ i`. -/

/-- Sum of the per-octave noise contributions. -/
def octaveSum (perm : List ℕ) (pers lac : ℚ) (octaves : ℕ) (x y time : ℚ) : ℚ :=
  ∑ i ∈ Finset.range octaves,
    noise3D perm (x * lac ^ i) (y * lac ^ i) (time * lac ^ i) * pers ^ i

/-- Sum of the per-octave amplitudes. -/
def amplitudeSum (pers : ℚ) (octaves : ℕ) : ℚ := ∑ i ∈ Finset.range octaves, pers ^ i

/-! ## Range bounds for the noise kernel -/

/-! ## Data model — `src/patterns/pattern.ts`
`CharacterData` and `RenderRegion` records and the per-frame
`PatternContext`. Optional TypeScript fields (`color?`, `opacity?`, …)
are modelled with `Option`; a glyph is an `Option String` so that the
JavaScript `undefined` produced by out-of-range array indexing can
propagate (the rain pattern stores such glyphs when the glyph set is
empty). -/

structure CharacterData where
  x : ℚ
  y : ℚ
  char : Option String
  color : Option String := none
  opacity : Option ℚ := none
  scale : Option ℚ := none
  rotation : Option ℚ := none
deriving DecidableEq, Repr

structure RenderRegion where
  rows : ℤ
  columns : ℤ
  startRow : ℤ
  endRow : ℤ
  startColumn : ℤ
  endColumn : ℤ
  charWidth : ℚ
  charHeight : ℚ
  charSpacingX : ℚ
  charSpacingY : ℚ
  canvasWidth : ℚ
  canvasHeight : ℚ
deriving DecidableEq, Repr

structure PatternContext where
  time : ℚ
  deltaTime : ℚ
  animationTime : ℚ
  mouseX : ℚ
  mouseY : ℚ
  clicked : Bool
  isAnimating : Bool
  animationSpeed : ℚ
  region : RenderRegion
deriving DecidableEq, Repr

/-- The inclusive integer range `[a..b]` traversed by a JavaScript
`for (let i = a; i <= b; i++)` loop. -/
def intRange (a b : ℤ) : List ℤ := (List.range (b + 1 - a).toNat).map (fun k => a + (k : ℤ))

/-! ## Perlin noise pattern — `src/patterns/perlin-noise-pattern.ts` -/

/-- Options of `PerlinNoisePattern` (the fields of `PatternOptions` plus
the Perlin-specific fields); `octaves` is modelled as `ℕ` (the loop
`for (let i = 0; i < octaves; i++)` of a non-negative octave count). -/
structure PerlinNoisePatternOptions where
  characters : List String
  animationSpeed : ℚ
  frequency : ℚ
  octaves : ℕ
  persistence : ℚ
  lacunarity : ℚ
  seed : ℚ
deriving DecidableEq, Repr

/-- `DEFAULT_PERLIN_OPTIONS` merged over `DEFAULT_PATTERN_OPTIONS`. -/
def defaultPerlinOptions : PerlinNoisePatternOptions :=
  { characters := ["█", "▓", "▒", "░", " "], animationSpeed := 1, frequency := 1/100,
    octaves := 4, persistence := 1/2, lacunarity := 2, seed := 0 }

/-- Instance state of a `PerlinNoisePattern`: its options and the
permutation table owned by the instance. -/
structure PerlinState where
  options : PerlinNoisePatternOptions
  permutations : List ℕ
deriving DecidableEq, Repr

/-- The `PerlinNoisePattern` constructor: store the (already merged)
options and build the permutation table from the seed. -/
def mkPerlinPattern (options : PerlinNoisePatternOptions) : PerlinState :=
  { options := options, permutations := generatePermutations options.seed }

/-- `PerlinNoisePattern.generate`: empty-glyph-set guard, then one
character per cell of the inclusive row/column ranges, with the noise
value normalised to `[0,1]`, mapped to a clamped glyph index, and the
position scaled by the character spacing. (The literal `0.001` of
`animationTime * 0.001` is the exact rational `1/1000`.) -/
def perlinGenerate (p : PerlinState) (ctx : PatternContext) : List CharacterData :=
  if p.options.characters.length = 0 then [] else
  (intRange ctx.region.startRow ctx.region.endRow).flatMap (fun row =>
    (intRange ctx.region.startColumn ctx.region.endColumn).map (fun col =>
      let noise := fractalNoise p.permutations p.options.persistence p.options.lacunarity
        p.options.octaves ((col : ℚ) * p.options.frequency) ((row : ℚ) * p.options.frequency)
        (ctx.animationTime * (1/1000))
      let normalizedValue := max 0 (min 1 ((noise + 1) / 2))
      let charIndex := jsFloor (normalizedValue * (p.options.characters.length : ℚ))
      let clampedIndex := max 0 (min charIndex ((p.options.characters.length : ℤ) - 1))
      { x := (col : ℚ) * ctx.region.charSpacingX,
        y := (row : ℚ) * ctx.region.charSpacingY,
        char := p.options.characters.get? clampedIndex.toNat,
        opacity := some normalizedValue }))

/-! ## Dummy pattern — `src/patterns/dummy-pattern.ts` -/

/-- `DummyPattern.generate` returns no characters. -/
def dummyGenerate (_ctx : PatternContext) : List CharacterData := []

/-! ## Static noise pattern — `src/patterns/static-noise-pattern.ts` -/

structure StaticNoisePatternOptions where
  characters : List String
  animationSpeed : ℚ
  seed : ℚ
deriving DecidableEq, Repr

/-- `StaticNoisePattern.generate`: a fresh seeded generator from
`seed + Math.floor(animationTime * 10)` is consumed one draw per cell in
row-major order; `characters[charIndex] || ' '` falls back to a space
when the index is out of range (or the glyph is the empty string, which
is falsy in JavaScript). -/
def staticGenerate (opts : StaticNoisePatternOptions) (ctx : PatternContext) :
    List CharacterData :=
  let r := ctx.region
  let rowsL := intRange r.startRow r.endRow
  let colsL := intRange r.startColumn r.endColumn
  let s0 := seedInit (opts.seed + (jsFloor (ctx.animationTime * 10) : ℚ))
  (List.range rowsL.length).flatMap (fun i =>
    (List.range colsL.length).map (fun j =>
      let row := rowsL.getD i 0
      let col := colsL.getD j 0
      let charIndex := jsFloor (randAt s0 (i * colsL.length + j) * (opts.characters.length : ℚ))
      let glyph := match opts.characters.get? charIndex.toNat with
        | some s => if s = "" then " " else s
        | none => " "
      { x := (col : ℚ) * r.charSpacingX,
        y := (row : ℚ) * r.charSpacingY,
        char := some glyph }))

/-! ## Rain pattern — `src/patterns/rain-pattern.ts`
`Math.random()` draws are modelled by an arbitrary stream `rs : ℕ → ℚ`
of values together with the index of the next unconsumed draw, threaded
through every helper in the source's evaluation order. -/

/-- JavaScript `Math.ceil`. -/
def jsCeil (q : ℚ) : ℤ := q.ceil

structure RainPatternOptions where
  characters : List String
  animationSpeed : ℚ
  rainDensity : ℚ
  minDropLength : ℚ
  maxDropLength : ℚ
  minSpeed : ℚ
  maxSpeed : ℚ
  mutationRate : ℚ
  fadeOpacity : ℚ
  headColor : String
deriving DecidableEq, Repr

/-- `DEFAULT_RAIN_OPTIONS` merged over `DEFAULT_PATTERN_OPTIONS`. -/
def defaultRainOptions : RainPatternOptions :=
  { characters := ["█", "▓", "▒", "░", " "], animationSpeed := 1, rainDensity := 4/5,
    minDropLength := 8, maxDropLength := 25, minSpeed := 1/2, maxSpeed := 3/2,
    mutationRate := 1/25, fadeOpacity := 1/5, headColor := "#FFFFFF" }

/-- A single falling drop; a glyph is `none` when the JavaScript array
access that drew it was out of range (empty glyph set). -/
structure RainDrop where
  y : ℚ
  column : ℤ
  speed : ℚ
  length : ℚ
  characters : List (Option String)
  lastMutationTime : ℚ
deriving DecidableEq, Repr

/-- Instance state of a `RainPattern`. -/
structure RainState where
  options : RainPatternOptions
  rainDrops : List RainDrop
  region : Option RenderRegion
  lastFrameCharacters : List CharacterData
deriving DecidableEq, Repr

/-- `_createRainDrop(column, currentTime)`: draw, in source order, the
drop length, one glyph per position, the two components of the start
height, and the speed; returns the drop and the next stream index. -/
def createRainDrop (opts : RainPatternOptions) (rs : ℕ → ℚ) (k : ℕ) (column : ℤ)
    (currentTime : ℚ) : RainDrop × ℕ :=
  let length := (jsFloor (rs k * (opts.maxDropLength - opts.minDropLength)) : ℚ) +
    opts.minDropLength
  let n := (jsFloor length).toNat
  let characters := (List.range n).map (fun t => opts.characters.get?
      (jsFloor (rs (k + 1 + t) * (opts.characters.length : ℚ))).toNat)
  let y := -(jsFloor (rs (k + 1 + n) * length) : ℚ) - rs (k + 2 + n) * 10
  let speed := rs (k + 3 + n) * (opts.maxSpeed - opts.minSpeed) + opts.minSpeed
  ({ y := y, column := column, speed := speed, length := length,
     characters := characters, lastMutationTime := currentTime }, k + 4 + n)

/-- `_resetRainDrop`: move the drop above the top using its old length,
then redraw length, glyphs, speed, and column. -/
def resetRainDrop (opts : RainPatternOptions) (r : RenderRegion) (rs : ℕ → ℚ)
    (drop : RainDrop) (k : ℕ) (currentTime : ℚ) : RainDrop × ℕ :=
  let y := -(jsFloor (rs k * 8) : ℚ) - drop.length
  let length := (jsFloor (rs (k + 1) * (opts.maxDropLength - opts.minDropLength)) : ℚ) +
    opts.minDropLength
  let n := (jsFloor length).toNat
  let characters := (List.range n).map (fun t => opts.characters.get?
      (jsFloor (rs (k + 2 + t) * (opts.characters.length : ℚ))).toNat)
  let speed := rs (k + 2 + n) * (opts.maxSpeed - opts.minSpeed) + opts.minSpeed
  let column := jsFloor (rs (k + 3 + n) * (r.columns : ℚ)) + r.startColumn
  ({ y := y, column := column, speed := speed, length := length,
     characters := characters, lastMutationTime := currentTime }, k + 4 + n)

/-- Per-drop step of `_updateRainDrops`: advance while animating, then a
time-gated random glyph mutation, then recycling once the drop has fallen
past the end row. (With `mutationRate = 0` JavaScript compares against
`1 / 0 = Infinity`, never mutating; the `ℚ` model compares against `0`.
Every configuration considered below has a positive mutation rate.) -/
def updateOneDrop (opts : RainPatternOptions) (r : RenderRegion) (ctx : PatternContext)
    (rs : ℕ → ℚ) (drop : RainDrop) (k : ℕ) : RainDrop × ℕ :=
  let drop := if ctx.isAnimating
    then { drop with y := drop.y + drop.speed * ctx.animationSpeed * ctx.deltaTime }
    else drop
  let step :=
    if ctx.animationTime - drop.lastMutationTime > 1 / opts.mutationRate then
      if rs k < opts.mutationRate then
        let charIndex := (jsFloor (rs (k + 1) * drop.length)).toNat
        let newGlyph := opts.characters.get?
          (jsFloor (rs (k + 2) * (opts.characters.length : ℚ))).toNat
        ({ drop with characters := drop.characters.set charIndex newGlyph,
                     lastMutationTime := ctx.animationTime }, k + 3)
      else (drop, k + 1)
    else (drop, k)
  if step.1.y - step.1.length > (r.endRow : ℚ)
    then resetRainDrop opts r rs step.1 step.2 ctx.animationTime
    else step

/-- `_updateRainDrops`: apply `updateOneDrop` to every drop in order. -/
def updateRainDrops (opts : RainPatternOptions) (r : RenderRegion) (ctx : PatternContext)
    (rs : ℕ → ℚ) : List RainDrop → ℕ → List RainDrop × ℕ
  | [], k => ([], k)
  | d :: ds, k =>
      let s1 := updateOneDrop opts r ctx rs d k
      let s2 := updateRainDrops opts r ctx rs ds s1.2
      (s1.1 :: s2.1, s2.2)

/-- The while-loop of `_maintainRainDensity`, adding `fuel` drops; the
loop adds exactly one drop per iteration, so it runs
`target - drops.length` times. Each new drop's column cycles through the
region (`(drops.length % columns) + startColumn`) and with probability
0.4 it starts scattered over the region's height. -/
def rainPad (opts : RainPatternOptions) (r : RenderRegion) (rs : ℕ → ℚ) :
    ℕ → List RainDrop → ℕ → List RainDrop × ℕ
  | 0, drops, k => (drops, k)
  | fuel + 1, drops, k =>
      let column := ((drops.length : ℤ) % r.columns) + r.startColumn
      let c := createRainDrop opts rs k column 0
      let next :=
        if rs c.2 < 2/5
          then ({ c.1 with y := rs (c.2 + 1) * (r.rows : ℚ) + (r.startRow : ℚ) }, c.2 + 2)
          else (c.1, c.2 + 1)
      rainPad opts r rs fuel (drops ++ [next.1]) next.2

/-- `_maintainRainDensity`: add drops while the population is below
`Math.floor(columns * rainDensity)` and truncate above it. -/
def maintainRainDensity (opts : RainPatternOptions) (r : RenderRegion) (rs : ℕ → ℚ)
    (drops : List RainDrop) (k : ℕ) : List RainDrop × ℕ :=
  let target := jsFloor ((r.columns : ℚ) * opts.rainDensity)
  let padded := rainPad opts r rs (target - drops.length).toNat drops k
  (if (padded.1.length : ℤ) > target then padded.1.take target.toNat else padded.1, padded.2)

/-- `RainPattern.update`: no-op without a bound region; otherwise advance
all drops and re-establish the target density. -/
def rainUpdate (s : RainState) (ctx : PatternContext) (rs : ℕ → ℚ) (k : ℕ) :
    RainState × ℕ :=
  match s.region with
  | none => (s, k)
  | some r =>
      let u := updateRainDrops s.options r ctx rs s.rainDrops k
      let m := maintainRainDensity s.options r rs u.1 u.2
      ({ s with rainDrops := m.1 }, m.2)

/-- The creation loop of `_initializeRainDrops`: `remaining` drops left to
create, `i` the current loop index; the first
`max 1 (floor (actualTargetCount * 0.3))` drops are scattered over the
region's height. (The JavaScript literal `0.3` is the double closest to
3/10; the model uses the exact 3/10, which only affects which of the
initial drops are scattered, not how many drops exist.) -/
def initRainDropsLoop (opts : RainPatternOptions) (r : RenderRegion) (rs : ℕ → ℚ)
    (cutoff : ℕ) : ℕ → ℕ → ℕ → List RainDrop × ℕ
  | 0, _, k => ([], k)
  | remaining + 1, i, k =>
      let column := jsFloor (rs k * (r.columns : ℚ)) + r.startColumn
      let c := createRainDrop opts rs (k + 1) column 0
      let d :=
        if i < cutoff then ({ c.1 with y := rs c.2 * (r.rows : ℚ) }, c.2 + 1) else (c.1, c.2)
      let rest := initRainDropsLoop opts r rs cutoff remaining (i + 1) d.2
      (d.1 :: rest.1, rest.2)

/-- `_initializeRainDrops`: create `max 1 (floor (columns * density))`
drops. -/
def initRainDrops (opts : RainPatternOptions) (r : RenderRegion) (rs : ℕ → ℚ) (k : ℕ) :
    List RainDrop × ℕ :=
  let targetDropCount := jsFloor ((r.columns : ℚ) * opts.rainDensity)
  let actualTargetCount := max 1 targetDropCount
  let cutoff := (max 1 (jsFloor ((actualTargetCount : ℚ) * (3/10)))).toNat
  initRainDropsLoop opts r rs cutoff actualTargetCount.toNat 0 k

/-- `_renderRainDrop`: one character per glyph position below the head,
skipped outside the region's row/column bounds; the head carries the
head color, glyph positions `i ≥ 3` fade with distance from the head.
The loop `for (let i = 0; i < drop.length; i++)` over an integer counter
runs `⌈drop.length⌉` times. -/
def renderRainDrop (opts : RainPatternOptions) (r : RenderRegion) (drop : RainDrop) :
    List CharacterData :=
  (List.range (jsCeil drop.length).toNat).filterMap (fun (i : ℕ) =>
    let charY := jsFloor drop.y - (i : ℤ)
    if charY < r.startRow ∨ charY > r.endRow then none
    else if drop.column < r.startColumn ∨ drop.column > r.endColumn then none
    else some {
      x := (drop.column : ℚ) * r.charSpacingX,
      y := (charY : ℚ) * r.charSpacingY,
      color := if i = 0 then some opts.headColor else none,
      opacity := some (if 3 ≤ i then 1 - (i : ℚ) / drop.length else 1),
      char := (drop.characters.get? i).join })

/-- `RainPattern.generate`: when a region is bound but the population is
empty the drops are re-created; the previous frame is re-emitted at the
fade opacity, all drops are rendered, and the non-faded characters are
retained as the next previous-frame buffer. Without a bound region and
with no drops the output is empty and the state untouched. -/
def rainGenerate (s : RainState) (_ctx : PatternContext) (rs : ℕ → ℚ) (k : ℕ) :
    List CharacterData × RainState × ℕ :=
  let dr := match s.region with
    | some r => if s.rainDrops.length = 0 then initRainDrops s.options r rs k
                else (s.rainDrops, k)
    | none => (s.rainDrops, k)
  if dr.1.length = 0 then ([], { s with rainDrops := dr.1 }, dr.2)
  else
    let faded := if 0 < s.options.fadeOpacity
      then s.lastFrameCharacters.map (fun c => { c with opacity := some s.options.fadeOpacity })
      else []
    let current := match s.region with
      | some r => dr.1.flatMap (renderRainDrop s.options r)
      | none => []
    let characters := faded ++ current
    let lastFrame := characters.filter (fun c => c.opacity ≠ some s.options.fadeOpacity)
    (characters, { s with rainDrops := dr.1, lastFrameCharacters := lastFrame }, dr.2)

/-! ## Render coordinator — `src/rendering/ascii-renderer.ts`
(the state-based `ASCIIRenderer` whose `render` consults the pattern's
dirty flag). Canvas text measurement is a host collaborator and is
modelled as a fixed function of font size, font family, and measured
string. The `resizeTo` option is a host object (window or element) and
is not part of the modelled record. -/

structure TextMetrics where
  width : ℚ
  actualBoundingBoxAscent : ℚ
  actualBoundingBoxDescent : ℚ
deriving DecidableEq, Repr

structure ASCIIRendererOptions where
  color : String
  animated : Bool
  animationSpeed : ℚ
  fontSize : ℚ
  fontFamily : String
  backgroundColor : String
  padding : ℤ
  rendererType : String
  enableMouseInteraction : Bool
  charSpacingX : Option ℚ
  charSpacingY : Option ℚ
deriving DecidableEq, Repr

/-- `DEFAULT_OPTIONS` of the coordinator. -/
def defaultRendererOptions : ASCIIRendererOptions :=
  { color := "#3e3e80ff", fontSize := 32, fontFamily := "monospace",
    backgroundColor := "#181818ff", padding := 0, rendererType := "2D",
    enableMouseInteraction := false, animated := false, animationSpeed := 1,
    charSpacingX := none, charSpacingY := none }

/-- A `Partial<ASCIIRendererOptions>` argument of `setOptions`: a field
is `none` when the key is absent from the object literal. -/
structure ASCIIRendererOptionsPatch where
  color : Option String := none
  animated : Option Bool := none
  animationSpeed : Option ℚ := none
  fontSize : Option ℚ := none
  fontFamily : Option String := none
  backgroundColor : Option String := none
  padding : Option ℤ := none
  rendererType : Option String := none
  enableMouseInteraction : Option Bool := none
  charSpacingX : Option (Option ℚ) := none
  charSpacingY : Option (Option ℚ) := none
deriving DecidableEq, Repr

/-- The spread `{ ...oldOptions, ...newOptions }`. -/
def mergeOptions (old : ASCIIRendererOptions) (p : ASCIIRendererOptionsPatch) :
    ASCIIRendererOptions :=
  { color := p.color.getD old.color,
    animated := p.animated.getD old.animated,
    animationSpeed := p.animationSpeed.getD old.animationSpeed,
    fontSize := p.fontSize.getD old.fontSize,
    fontFamily := p.fontFamily.getD old.fontFamily,
    backgroundColor := p.backgroundColor.getD old.backgroundColor,
    padding := p.padding.getD old.padding,
    rendererType := p.rendererType.getD old.rendererType,
    enableMouseInteraction := p.enableMouseInteraction.getD old.enableMouseInteraction,
    charSpacingX := p.charSpacingX.getD old.charSpacingX,
    charSpacingY := p.charSpacingY.getD old.charSpacingY }

/-- `_hasOptionsChanged(oldOptions)` iterates all keys of the old (full)
record comparing the already-merged current options against it: true iff
some field differs, i.e. the records are unequal. -/
def hasOptionsChanged (current old : ASCIIRendererOptions) : Bool :=
  decide (current ≠ old)

/-- `_calculateSpacing`: maximum measured glyph width, measured height of
the joined glyph set floored at the font size, and the
`(v && v > 0) ? v : measured` spacing overrides (an absent or
non-positive override falls back to the measured value; the literal
`1.2` is the exact rational 6/5). Returns
`(charWidth, charHeight, charSpacingX, charSpacingY)`. -/
def calculateSpacing (measure : ℚ → String → String → TextMetrics)
    (opts : ASCIIRendererOptions) (patternChars : List String) : ℚ × ℚ × ℚ × ℚ :=
  let maxCharWidth := patternChars.foldl
    (fun acc c => max acc (measure opts.fontSize opts.fontFamily c).width) 0
  let charWidth := maxCharWidth
  let hm := measure opts.fontSize opts.fontFamily (String.join patternChars)
  let measuredHeight := hm.actualBoundingBoxAscent + hm.actualBoundingBoxDescent
  let charHeight := max measuredHeight opts.fontSize
  let charSpacingX := match opts.charSpacingX with
    | some v => if 0 < v then v else charWidth
    | none => charWidth
  let charSpacingY := match opts.charSpacingY with
    | some v => if 0 < v then v else max charHeight (opts.fontSize * (6/5))
    | none => max charHeight (opts.fontSize * (6/5))
  (charWidth, charHeight, charSpacingX, charSpacingY)

/-- `_calculateRegion`: spacing from the font metrics, then
`columns = floor(canvasWidth / spacingX)`,
`rows = floor(canvasHeight / spacingY)`, and the padding-adjusted
inclusive bounds. (JavaScript would yield `Infinity` columns for a zero
spacing; the `ℚ` model yields 0 — no configuration evaluated below has a
zero spacing.) -/
def calculateRegion (measure : ℚ → String → String → TextMetrics)
    (opts : ASCIIRendererOptions) (patternChars : List String)
    (canvasWidth canvasHeight : ℚ) : RenderRegion :=
  let sp := calculateSpacing measure opts patternChars
  let cols := jsFloor (canvasWidth / sp.2.2.1)
  let rows := jsFloor (canvasHeight / sp.2.2.2)
  { startColumn := opts.padding, endColumn := cols - opts.padding,
    startRow := opts.padding, endRow := rows - opts.padding,
    columns := cols, rows := rows,
    charWidth := sp.1, charHeight := sp.2.1,
    charSpacingX := sp.2.2.1, charSpacingY := sp.2.2.2,
    canvasWidth := canvasWidth, canvasHeight := canvasHeight }

/-- Coordinator state: the fields of `initState()` that the modelled
operations read or write. The canvas is represented by its size, the
lazily created temp canvas by the `tempCanvasCreated` flag, the active
pattern's `isDirty` flag by `patternDirty`, and the number of backend
`clear`+`render` calls performed so far by `drawCount`. -/
structure CoordState where
  options : ASCIIRendererOptions
  patternChars : List String
  region : RenderRegion
  canvasWidth : ℚ
  canvasHeight : ℚ
  lastTime : ℚ
  animationTime : ℚ
  mouseX : ℚ
  mouseY : ℚ
  mouseClicked : Bool
  lastHash : ℕ
  isDirty : Bool
  patternDirty : Bool
  animationId : Option ℕ
  tempCanvasCreated : Bool
  drawCount : ℕ
deriving DecidableEq, Repr

/-! ### Content hash — `_hash` -/

/-- `ToUint32` of an integer: the unsigned representative of JavaScript's
`ToInt32` result. Bitwise XOR of two int32 values corresponds exactly to
`Nat.xor` of their unsigned representations, and two int32 values are
equal iff their unsigned representations are, so the whole hash is
modelled in unsigned form. -/
def toUint32 (n : ℤ) : ℕ := (n % 4294967296).toNat

/-- `charCodeAt(0)`: the first UTF-16 code unit; `0` stands for the
`NaN` of the empty string, which the subsequent `ToInt32` coercions turn
into 0. (All glyphs appearing here are basic-plane characters, whose
first code unit is their code point.) -/
def charCode0 (s : String) : ℕ := ((s.data.head?).map Char.toNat).getD 0

/-- One term of `_hash` with the destructuring defaults `color = ''`,
`opacity = 1`, `scale = 1`, `rotation = 0`:
`((x*31 + y*17) ^ code) + color0*13 + floor(opacity*100)*7 +
floor(scale*100)*5 + floor(rotation*100)*3`, coerced to 32 bits by the
`^=` that consumes it. The signed int32 value of the XOR is congruent to
its unsigned representative modulo `2^32`, so adding the remaining terms
and reducing modulo `2^32` matches `ToInt32` of the JavaScript sum.
(`charCodeAt` on an `undefined` glyph would throw a `TypeError`; the
model maps it like the empty string, and no list hashed in the theorems
below contains an undefined glyph.) -/
def hashTerm (c : CharacterData) : ℕ :=
  let xy := toUint32 (jsTrunc (c.x * 31 + c.y * 17))
  let code := charCode0 (c.char.getD "")
  let inner := Nat.xor xy code
  let color0 : ℕ := match c.color with
    | some s => charCode0 s
    | none => 0
  toUint32 ((inner : ℤ) + (color0 : ℤ) * 13 + jsFloor (c.opacity.getD 1 * 100) * 7 +
    jsFloor (c.scale.getD 1 * 100) * 5 + jsFloor (c.rotation.getD 0 * 100) * 3)

/-- `_hash`: `hash ^=` each character's term, starting from 0. -/
def hashList (l : List CharacterData) : ℕ :=
  l.foldl (fun h c => h ^^^ hashTerm c) 0

/-! ### Frame rendering — `render` -/

/-- `ASCIIRenderer.render(time)`: compute the frame delta, advance the
animation clock while animating, build the frame context, clear the
click flag, run the active pattern's update-then-generate (modelled as
the pure function `gen`, which is exact for the Perlin, static, and
dummy patterns), and skip the backend `clear`+`render` when the output
hash is unchanged and neither the coordinator nor the pattern is dirty.
Returns the new state and whether the backend drew. -/
def coordRender (gen : PatternContext → List CharacterData) (s : CoordState) (time : ℚ) :
    CoordState × Bool :=
  let deltaTime := time - s.lastTime
  let animationTime := if s.options.animated
    then s.animationTime + deltaTime / 1000 * s.options.animationSpeed
    else s.animationTime
  let ctx : PatternContext := {
    time := animationTime, deltaTime := deltaTime / 1000, animationTime := animationTime,
    mouseX := s.mouseX, mouseY := s.mouseY, clicked := s.mouseClicked,
    isAnimating := s.options.animated, animationSpeed := s.options.animationSpeed,
    region := s.region }
  let s1 := { s with lastTime := time, animationTime := animationTime, mouseClicked := false }
  let characters := gen ctx
  if hashList characters = s1.lastHash ∧ s1.isDirty = false ∧ s1.patternDirty = false
    then (s1, false)
    else
      ({ s1 with
          isDirty := false
          patternDirty := false
          lastHash := hashList characters
          drawCount := s1.drawCount + 1 }, true)

/-! ### Option updates — `setOptions` -/

/-- `ASCIIRenderer.setOptions(newOptions)`: merge the patch over the old
options, set the coordinator dirty flag iff any option changed,
recompute the region, re-bind the pattern to it (`pattern.initialize`;
a no-op for the stateless patterns modelled by a pure `gen`), hand the
options to the backend, and run `_syncAnimationState` (which only
starts/stops the animation loop — `startAnimation` sets `lastTime` to
the current clock `now` and schedules a frame, it does not render
synchronously). No backend `clear`+`render` call happens here; contrast
`resize`, which force-renders when not animating. -/
def coordSetOptions (measure : ℚ → String → String → TextMetrics) (s : CoordState)
    (p : ASCIIRendererOptionsPatch) (now : ℚ) : CoordState :=
  let oldOptions := s.options
  let merged := mergeOptions oldOptions p
  let s1 := { s with options := merged,
                     isDirty := hasOptionsChanged merged oldOptions,
                     region := calculateRegion measure merged s.patternChars
                       s.canvasWidth s.canvasHeight,
                     tempCanvasCreated := true }
  if merged.animated = true ∧ s1.animationId = none
    then { s1 with lastTime := now, animationId := some 1 }
    else if merged.animated = false ∧ s1.animationId ≠ none
      then { s1 with animationId := none }
      else s1

/-- The stateful reading of `_calculateRegion` through the `tempContext`
getter: the first use creates the temp canvas; nothing else in the
coordinator state changes and the returned region depends only on the
measure function, the options, the glyph set, and the canvas size. -/
def calcRegionStep (measure : ℚ → String → String → TextMetrics) (s : CoordState) :
    RenderRegion × CoordState :=
  (calculateRegion measure s.options s.patternChars s.canvasWidth s.canvasHeight,
   { s with tempCanvasCreated := true })

/-! ## Supporting lemmas -/

/-! ## Claim theorems (symbolic) -/

/-- The frame context built by `render` when the coordinator is not
animating. -/
def nonAnimatedCtx (s : CoordState) (t : ℚ) : PatternContext :=
  { time := s.animationTime, deltaTime := (t - s.lastTime) / 1000,
    animationTime := s.animationTime, mouseX := s.mouseX, mouseY := s.mouseY,
    clicked := s.mouseClicked, isAnimating := false,
    animationSpeed := s.options.animationSpeed, region := s.region }

/-! ## Concrete instances and end-to-end evaluations
`Rat` arithmetic is made unfoldable in this scope so that `decide` can
evaluate the model on concrete inputs. -/

/-- The permutation table generated from seed 0, as a literal
(established by `permTable0_spec`). -/
def permTable0 : List ℕ := [
  112, 234, 141, 190, 87, 41, 85, 67, 238, 174, 213, 223, 78, 128, 6, 106,
  34, 250, 187, 207, 126, 9, 131, 206, 203, 76, 24, 124, 43, 143, 74, 175,
  237, 70, 130, 225, 158, 199, 170, 252, 80, 185, 156, 181, 39, 105, 19,
  166, 146, 197, 14, 153, 164, 215, 209, 104, 117, 25, 251, 66, 28, 208,
  51, 89, 101, 31, 221, 140, 62, 129, 114, 224, 115, 172, 200, 26, 150,
  144, 222, 102, 214, 5, 103, 7, 75, 231, 35, 247, 99, 218, 82, 173, 123,
  36, 179, 142, 77, 60, 64, 195, 113, 32, 20, 186, 193, 49, 52, 152, 192,
  210, 45, 110, 16, 63, 109, 68, 233, 69, 212, 59, 46, 47, 155, 18, 81,
  111, 40, 151, 30, 246, 92, 3, 243, 255, 37, 241, 188, 194, 29, 22, 118,
  88, 240, 147, 108, 219, 73, 217, 4, 120, 86, 23, 27, 44, 201, 162, 226,
  42, 133, 65, 176, 95, 83, 57, 183, 38, 148, 182, 122, 125, 107, 228, 119,
  2, 229, 145, 136, 135, 242, 248, 84, 96, 167, 253, 71, 93, 13, 198, 17,
  50, 227, 189, 61, 100, 235, 177, 249, 180, 178, 204, 254, 220, 55, 48,
  97, 157, 90, 56, 184, 132, 236, 138, 160, 154, 211, 53, 79, 232, 165,
  139, 72, 163, 10, 58, 171, 205, 159, 245, 149, 21, 121, 196, 216, 137,
  239, 98, 15, 91, 1, 161, 244, 12, 8, 202, 127, 94, 230, 168, 169, 11, 54,
  134, 116, 191, 33, 0, 112, 234, 141, 190, 87, 41, 85, 67, 238, 174, 213,
  223, 78, 128, 6, 106, 34, 250, 187, 207, 126, 9, 131, 206, 203, 76, 24,
  124, 43, 143, 74, 175, 237, 70, 130, 225, 158, 199, 170, 252, 80, 185,
  156, 181, 39, 105, 19, 166, 146, 197, 14, 153, 164, 215, 209, 104, 117,
  25, 251, 66, 28, 208, 51, 89, 101, 31, 221, 140, 62, 129, 114, 224, 115,
  172, 200, 26, 150, 144, 222, 102, 214, 5, 103, 7, 75, 231, 35, 247, 99,
  218, 82, 173, 123, 36, 179, 142, 77, 60, 64, 195, 113, 32, 20, 186, 193,
  49, 52, 152, 192, 210, 45, 110, 16, 63, 109, 68, 233, 69, 212, 59, 46,
  47, 155, 18, 81, 111, 40, 151, 30, 246, 92, 3, 243, 255, 37, 241, 188,
  194, 29, 22, 118, 88, 240, 147, 108, 219, 73, 217, 4, 120, 86, 23, 27,
  44, 201, 162, 226, 42, 133, 65, 176, 95, 83, 57, 183, 38, 148, 182, 122,
  125, 107, 228, 119, 2, 229, 145, 136, 135, 242, 248, 84, 96, 167, 253,
  71, 93, 13, 198, 17, 50, 227, 189, 61, 100, 235, 177, 249, 180, 178, 204,
  254, 220, 55, 48, 97, 157, 90, 56, 184, 132, 236, 138, 160, 154, 211, 53,
  79, 232, 165, 139, 72, 163, 10, 58, 171, 205, 159, 245, 149, 21, 121,
  196, 216, 137, 239, 98, 15, 91, 1, 161, 244, 12, 8, 202, 127, 94, 230,
  168, 169, 11, 54, 134, 116, 191, 33, 0]

/-- A fixed text-measure collaborator: every measured string is 10 units
wide with ascent 8 and descent 2. -/
def sampleMeasure : ℚ → String → String → TextMetrics :=
  fun _ _ _ => { width := 10, actualBoundingBoxAscent := 8, actualBoundingBoxDescent := 2 }

/-- Renderer options of the end-to-end scenario: explicit 10×10 glyph
spacing, no padding. -/
def scenarioOptions : ASCIIRendererOptions :=
  { defaultRendererOptions with charSpacingX := some 10, charSpacingY := some 10 }

/-- The scenario region: a 40×20 canvas at 10×10 spacing gives
`columns = 4`, `rows = 2` (and, with padding 0, the inclusive bounds
`startColumn = 0, endColumn = 4, startRow = 0, endRow = 2`). -/
def scenarioRegion : RenderRegion :=
  calculateRegion sampleMeasure scenarioOptions [".", "#"] 40 20

/-- Noise options of the end-to-end scenario. -/
def scenarioNoiseOptions : PerlinNoisePatternOptions :=
  { characters := [".", "#"], animationSpeed := 1, frequency := 1, octaves := 1,
    persistence := 1/2, lacunarity := 2, seed := 0 }

/-- The scenario pattern instance. -/
def scenarioPerlin : PerlinState := mkPerlinPattern scenarioNoiseOptions

/-- The scenario pattern instance with its permutation table as a
literal. -/
def scenarioPerlinLit : PerlinState :=
  { options := scenarioNoiseOptions, permutations := permTable0 }

/-- The scenario frame context at `animationTime = 0`. -/
def scenarioCtx : PatternContext :=
  { time := 0, deltaTime := 0, animationTime := 0, mouseX := 0, mouseY := 0,
    clicked := false, isAnimating := false, animationSpeed := 1, region := scenarioRegion }

/-- A 1×1 region (degenerate but non-fatal). -/
def sampleRegion1 : RenderRegion :=
  { rows := 1, columns := 1, startRow := 0, endRow := 0, startColumn := 0, endColumn := 0,
    charWidth := 10, charHeight := 10, charSpacingX := 10, charSpacingY := 10,
    canvasWidth := 10, canvasHeight := 10 }

/-- A frame context over the 1×1 region. -/
def sampleCtx1 : PatternContext :=
  { time := 0, deltaTime := 0, animationTime := 0, mouseX := 0, mouseY := 0,
    clicked := false, isAnimating := false, animationSpeed := 1, region := sampleRegion1 }

/-- A region with 50 columns for the rain-density scenario. -/
def sampleRegion50 : RenderRegion :=
  { rows := 20, columns := 50, startRow := 0, endRow := 20, startColumn := 0, endColumn := 50,
    charWidth := 10, charHeight := 10, charSpacingX := 10, charSpacingY := 10,
    canvasWidth := 500, canvasHeight := 200 }

/-- A rain pattern with `rainDensity = 0.9` bound to the 50-column
region. -/
def sampleRainState : RainState :=
  { options := { defaultRainOptions with rainDensity := 9/10 }, rainDrops := [],
    region := some sampleRegion50, lastFrameCharacters := [] }

/-- An animating frame context over the 50-column region. -/
def sampleRainCtx : PatternContext :=
  { time := 16/1000, deltaTime := 16/1000, animationTime := 16/1000, mouseX := 0, mouseY := 0,
    clicked := false, isAnimating := true, animationSpeed := 1, region := sampleRegion50 }

/-- A freshly initialized coordinator (dirty, as `initState()` starts)
bound to the dummy pattern over a 40×20 canvas. -/
def initialCoordState : CoordState :=
  { options := defaultRendererOptions, patternChars := ["█", "▓", "▒", "░", " "],
    region := calculateRegion sampleMeasure defaultRendererOptions
      ["█", "▓", "▒", "░", " "] 40 20,
    canvasWidth := 40, canvasHeight := 20, lastTime := 0, animationTime := 0,
    mouseX := 0, mouseY := 0, mouseClicked := false, lastHash := 0, isDirty := true,
    patternDirty := false, animationId := none, tempCanvasCreated := true, drawCount := 0 }

/-- The coordinator after its first (dirty) render of the dummy
pattern: hash stored, flags clear, one backend draw performed. -/
def settledCoordState : CoordState := (coordRender dummyGenerate initialCoordState 0).1

/-- The `setOptions({backgroundColor: "#000"})` patch. -/
def bgPatch : ASCIIRendererOptionsPatch := { backgroundColor := some "#000" }

/-- A sample hashed character. -/
def hashEntryA : CharacterData := { x := 0, y := 0, char := some "A" }

/-- A second sample hashed character differing from `hashEntryA` in
every field. -/
def hashEntryB : CharacterData :=
  { x := 1, y := 3, char := some "B", color := some "r", opacity := some (1/2),
    scale := some 2, rotation := some 1 }

/-! ## Theorems -/

theorem jsFloor_eq (q : ℚ) : jsFloor q = ⌊q⌋ := by
  rw [jsFloor, Rat.floor_def, Rat.floor_def']

theorem fractalAux_spec (perm : List ℕ) (pers lac x y time : ℚ) :
    ∀ (n : ℕ) (v m a f : ℚ),
      fractalAux perm pers lac x y time n v m a f =
        (v + a * ∑ i ∈ Finset.range n,
            noise3D perm (x * (f * lac ^ i)) (y * (f * lac ^ i)) (time * (f * lac ^ i)) * pers ^ i,
         m + a * ∑ i ∈ Finset.range n, pers ^ i) := by
  intro n
  induction n with
  | zero => intro v m a f; simp [fractalAux]
  | succ n ih =>
      intro v m a f
      rw [fractalAux, ih]
      have hs : ∀ g : ℕ → ℚ, ∑ i ∈ Finset.range (n + 1), g i =
          g 0 + ∑ i ∈ Finset.range n, g (i + 1) := by
        intro g; rw [Finset.sum_range_succ' g n]; ring
      refine Prod.ext ?_ ?_ <;> simp only [hs]
      · have h1 : ∀ i, noise3D perm (x * (f * lac ^ (i + 1))) (y * (f * lac ^ (i + 1)))
            (time * (f * lac ^ (i + 1))) * pers ^ (i + 1) =
            (noise3D perm (x * (f * lac * lac ^ i)) (y * (f * lac * lac ^ i))
              (time * (f * lac * lac ^ i)) * pers ^ i) * pers := by
          intro i
          have : f * lac ^ (i + 1) = f * lac * lac ^ i := by ring
          rw [this]; ring
        simp only [h1, ← Finset.sum_mul, pow_zero, mul_one]
        ring
      · simp only [pow_succ, pow_zero, ← Finset.sum_mul]
        ring

/-- `_fractalNoise` computes exactly the octave-sum over the amplitude-sum. -/
theorem fractalNoise_eq_sums (perm : List ℕ) (pers lac : ℚ) (octaves : ℕ) (x y time : ℚ) :
    fractalNoise perm pers lac octaves x y time =
      octaveSum perm pers lac octaves x y time / amplitudeSum pers octaves := by
  unfold fractalNoise
  rw [fractalAux_spec]
  simp only [octaveSum, amplitudeSum, zero_add, one_mul]

theorem fade_nonneg {t : ℚ} (h0 : 0 ≤ t) : 0 ≤ fade t := by
  have key : fade t = t ^ 3 * (6 * t ^ 2 - 15 * t + 10) := by rw [fade]; ring
  have hq : 0 < 6 * t ^ 2 - 15 * t + 10 := by nlinarith [sq_nonneg (4 * t - 5)]
  nlinarith [pow_nonneg h0 3]

theorem fade_le_one {t : ℚ} (h0 : 0 ≤ t) (h1 : t ≤ 1) : fade t ≤ 1 := by
  have key : 1 - fade t = (1 - t) ^ 3 * (6 * t ^ 2 + 3 * t + 1) := by rw [fade]; ring
  have hc : 0 < 6 * t ^ 2 + 3 * t + 1 := by nlinarith [sq_nonneg t]
  nlinarith [pow_nonneg (by linarith : (0:ℚ) ≤ 1 - t) 3]

theorem lerp_abs_le {a b t M : ℚ} (ha : |a| ≤ M) (hb : |b| ≤ M)
    (h0 : 0 ≤ t) (h1 : t ≤ 1) : |lerp a b t| ≤ M := by
  rw [abs_le] at ha hb ⊢
  rw [lerp]
  constructor <;> nlinarith [ha.1, ha.2, hb.1, hb.2]

theorem abs_if_neg_le (p : Prop) [Decidable p] {q : ℚ} (hq : |q| ≤ 1) :
    |if p then q else -q| ≤ 1 := by
  split
  · exact hq
  · rwa [abs_neg]

theorem gradient3D_abs_le {h : ℕ} {x y z : ℚ} (hx : |x| ≤ 1) (hy : |y| ≤ 1)
    (hz : |z| ≤ 1) : |gradient3D h x y z| ≤ 2 := by
  simp only [gradient3D]
  have hu : |if h % 16 < 8 then x else y| ≤ 1 := by split <;> assumption
  have hv : |if h % 16 < 4 then y else if h % 16 = 12 ∨ h % 16 = 14 then x else z| ≤ 1 := by
    split
    · assumption
    · split <;> assumption
  have h1 := abs_if_neg_le (h % 16 % 2 = 0) hu
  have h2 := abs_if_neg_le (h % 16 / 2 % 2 = 0) hv
  refine le_trans (abs_add _ _) ?_
  linarith

/-- `_noise3D` always lies in `[-2, 2]` (each corner gradient is a sum of
two coordinates of absolute value at most 1, and the fade-weighted
interpolation is a convex combination). -/
theorem noise3D_abs_le (perm : List ℕ) (x y z : ℚ) : |noise3D perm x y z| ≤ 2 := by
  simp only [noise3D]
  have fract_facts : ∀ q : ℚ, 0 ≤ q - (jsFloor q : ℚ) ∧ q - (jsFloor q : ℚ) < 1 := by
    intro q
    rw [jsFloor_eq]
    constructor
    · have := Int.floor_le q; linarith
    · have := Int.lt_floor_add_one q; linarith
  obtain ⟨hx0, hx1⟩ := fract_facts x
  obtain ⟨hy0, hy1⟩ := fract_facts y
  obtain ⟨hz0, hz1⟩ := fract_facts z
  have habs : ∀ q : ℚ, 0 ≤ q → q < 1 → |q| ≤ 1 ∧ |q - 1| ≤ 1 := by
    intro q h0 h1
    constructor <;> rw [abs_le] <;> constructor <;> linarith
  obtain ⟨hxa, hxb⟩ := habs _ hx0 hx1
  obtain ⟨hya, hyb⟩ := habs _ hy0 hy1
  obtain ⟨hza, hzb⟩ := habs _ hz0 hz1
  have hfade : ∀ q : ℚ, 0 ≤ q → q < 1 → 0 ≤ fade q ∧ fade q ≤ 1 := by
    intro q h0 h1
    exact ⟨fade_nonneg h0, fade_le_one h0 (by linarith)⟩
  obtain ⟨hu0, hu1⟩ := hfade _ hx0 hx1
  obtain ⟨hv0, hv1⟩ := hfade _ hy0 hy1
  obtain ⟨hw0, hw1⟩ := hfade _ hz0 hz1
  apply lerp_abs_le _ _ hw0 hw1 <;>
    apply lerp_abs_le _ _ hv0 hv1 <;>
    apply lerp_abs_le _ _ hu0 hu1 <;>
    apply gradient3D_abs_le <;> assumption

theorem amplitudeSum_nonneg {pers : ℚ} (hp : 0 ≤ pers) (octaves : ℕ) :
    0 ≤ amplitudeSum pers octaves := by
  exact Finset.sum_nonneg fun i _ => pow_nonneg hp i

theorem octaveSum_abs_le {pers : ℚ} (hp : 0 ≤ pers) (perm : List ℕ) (lac : ℚ)
    (octaves : ℕ) (x y time : ℚ) :
    |octaveSum perm pers lac octaves x y time| ≤ 2 * amplitudeSum pers octaves := by
  rw [octaveSum, amplitudeSum, Finset.mul_sum]
  calc |∑ i ∈ Finset.range octaves,
          noise3D perm (x * lac ^ i) (y * lac ^ i) (time * lac ^ i) * pers ^ i|
      ≤ ∑ i ∈ Finset.range octaves,
          |noise3D perm (x * lac ^ i) (y * lac ^ i) (time * lac ^ i) * pers ^ i| :=
        Finset.abs_sum_le_sum_abs _ _
    _ ≤ ∑ i ∈ Finset.range octaves, 2 * pers ^ i := by
        apply Finset.sum_le_sum
        intro i _
        rw [abs_mul, abs_pow, abs_of_nonneg hp]
        exact mul_le_mul_of_nonneg_right (noise3D_abs_le _ _ _ _) (pow_nonneg hp i)

/-- Fractal noise always lies in `[-2, 2]` when persistence is
non-negative (each octave noise sample lies in `[-2, 2]` and the result
is the amplitude-weighted average). -/
theorem fractalNoise_abs_le {pers : ℚ} (hp : 0 ≤ pers) (perm : List ℕ) (lac : ℚ)
    (octaves : ℕ) (x y time : ℚ) :
    |fractalNoise perm pers lac octaves x y time| ≤ 2 := by
  rw [fractalNoise_eq_sums]
  rcases eq_or_lt_of_le (amplitudeSum_nonneg hp octaves) with h | h
  · rw [← h, div_zero]
    norm_num
  · rw [abs_div, abs_of_pos h, div_le_iff₀ h]
    calc |octaveSum perm pers lac octaves x y time|
        ≤ 2 * amplitudeSum pers octaves := octaveSum_abs_le hp perm lac octaves x y time
      _ = 2 * amplitudeSum pers octaves := rfl

/-- `perlinGenerate` depends only on the non-seed options and the
permutation table. -/
theorem perlinGenerate_congr (p q : PerlinState)
    (hc : p.options.characters = q.options.characters)
    (hf : p.options.frequency = q.options.frequency)
    (ho : p.options.octaves = q.options.octaves)
    (hpe : p.options.persistence = q.options.persistence)
    (hl : p.options.lacunarity = q.options.lacunarity)
    (hperm : p.permutations = q.permutations) (ctx : PatternContext) :
    perlinGenerate p ctx = perlinGenerate q ctx := by
  unfold perlinGenerate
  rw [hc, hf, ho, hpe, hl, hperm]

/-- The XOR-fold of `_hash` is invariant under list permutation
(`Nat.xor` is associative and commutative, and each term depends only on
its own entry). -/
theorem hashList_perm {l1 l2 : List CharacterData} (h : l1.Perm l2) :
    hashList l1 = hashList l2 := by
  unfold hashList
  exact h.foldl_eq'
    (fun x _ y _ z => by
      rw [Nat.xor_assoc, Nat.xor_assoc, Nat.xor_comm (hashTerm x) (hashTerm y)]) 0

/-- `_updateRainDrops` preserves the drop count. -/
theorem updateRainDrops_length (opts : RainPatternOptions) (r : RenderRegion)
    (ctx : PatternContext) (rs : ℕ → ℚ) :
    ∀ (ds : List RainDrop) (k : ℕ),
      (updateRainDrops opts r ctx rs ds k).1.length = ds.length := by
  intro ds
  induction ds with
  | nil => intro k; rfl
  | cons d ds ih => intro k; simp [updateRainDrops, ih]

/-- The while-loop of `_maintainRainDensity` adds exactly `fuel` drops. -/
theorem rainPad_length (opts : RainPatternOptions) (r : RenderRegion) (rs : ℕ → ℚ) :
    ∀ (fuel : ℕ) (ds : List RainDrop) (k : ℕ),
      (rainPad opts r rs fuel ds k).1.length = ds.length + fuel := by
  intro fuel
  induction fuel with
  | zero => intro ds k; rfl
  | succ n ih =>
      intro ds k
      simp only [rainPad, ih, List.length_append, List.length_cons, List.length_nil]
      omega

/-- After `_maintainRainDensity` the population equals
`floor(columns * rainDensity)` whenever that target is non-negative. -/
theorem maintainRainDensity_length (opts : RainPatternOptions) (r : RenderRegion)
    (rs : ℕ → ℚ) (drops : List RainDrop) (k : ℕ)
    (ht : 0 ≤ jsFloor ((r.columns : ℚ) * opts.rainDensity)) :
    (maintainRainDensity opts r rs drops k).1.length =
      (jsFloor ((r.columns : ℚ) * opts.rainDensity)).toNat := by
  simp only [maintainRainDensity]
  have hpad := rainPad_length opts r rs
    ((jsFloor ((r.columns : ℚ) * opts.rainDensity)) - drops.length).toNat drops k
  split
  · rename_i hgt
    rw [List.length_take, hpad]
    omega
  · rename_i hle
    rw [hpad] at hle ⊢
    omega

/-- Zero-coordinate gradients vanish. -/
theorem gradient3D_zero (h : ℕ) : gradient3D h 0 0 0 = 0 := by
  simp only [gradient3D]
  split <;> split <;> split <;> split <;> norm_num

/-- At integer sample points every fractional part is zero, every fade
weight is zero, and the interpolation collapses onto the all-zero-offset
corner gradient, so `_noise3D` returns 0. -/
theorem noise3D_intCast (perm : List ℕ) (a b c : ℤ) :
    noise3D perm (a : ℚ) (b : ℚ) (c : ℚ) = 0 := by
  have hfl : ∀ n : ℤ, jsFloor (n : ℚ) = n := by
    intro n
    rw [jsFloor_eq, Int.floor_intCast]
  have hfr : ∀ n : ℤ, (n : ℚ) - (jsFloor (n : ℚ) : ℚ) = 0 := by
    intro n
    rw [hfl]
    ring
  have hfade : fade 0 = 0 := by
    simp [fade]
  simp only [noise3D, hfr, hfade, lerp, gradient3D_zero]
  ring

/-- Claim C2 (confirmed): determinism across independent instances —
for every seed, any two `PerlinNoisePattern` constructions with that
seed own identical permutation tables, produce identical `_noise3D`
values at every coordinate triple, and (with fully identical options)
identical `generate` output on every context. The construction is a
pure function of the options, with no hidden global state: the seeded
generator closes over local state only. -/
theorem perlin_seed_determinism (s : ℚ) (o1 o2 : PerlinNoisePatternOptions)
    (h1 : o1.seed = s) (h2 : o2.seed = s) :
    (mkPerlinPattern o1).permutations = (mkPerlinPattern o2).permutations ∧
    (∀ x y z : ℚ, noise3D (mkPerlinPattern o1).permutations x y z =
      noise3D (mkPerlinPattern o2).permutations x y z) ∧
    (o1 = o2 → ∀ ctx : PatternContext,
      perlinGenerate (mkPerlinPattern o1) ctx = perlinGenerate (mkPerlinPattern o2) ctx) := by
  have hperm : (mkPerlinPattern o1).permutations = (mkPerlinPattern o2).permutations := by
    unfold mkPerlinPattern
    rw [h1, h2]
  exact ⟨hperm, fun x y z => by rw [hperm], fun he ctx => by rw [he]⟩

/-- Witness for claim C2 at seed 0 with the default options. -/
theorem perlin_seed_determinism_witness :
    defaultPerlinOptions.seed = 0 ∧
    ((mkPerlinPattern defaultPerlinOptions).permutations =
        (mkPerlinPattern defaultPerlinOptions).permutations ∧
      (∀ x y z : ℚ, noise3D (mkPerlinPattern defaultPerlinOptions).permutations x y z =
        noise3D (mkPerlinPattern defaultPerlinOptions).permutations x y z) ∧
      (defaultPerlinOptions = defaultPerlinOptions → ∀ ctx : PatternContext,
        perlinGenerate (mkPerlinPattern defaultPerlinOptions) ctx =
          perlinGenerate (mkPerlinPattern defaultPerlinOptions) ctx)) :=
  ⟨rfl, perlin_seed_determinism 0 defaultPerlinOptions defaultPerlinOptions rfl rfl⟩

/-- Claim C10 (confirmed): `createSeededRandom` silently replaces a zero
seed by the initial state 1, so seeds 0 and 1 generate identical value
sequences, identical permutation tables, and – for two Perlin patterns
that differ only in these two seeds – identical noise values and
`generate` outputs. -/
theorem seed_zero_one_equiv :
    seedInit 0 = seedInit 1 ∧
    (∀ k : ℕ, randAt (seedInit 0) k = randAt (seedInit 1) k) ∧
    generatePermutations 0 = generatePermutations 1 ∧
    (∀ o1 o2 : PerlinNoisePatternOptions, o1.seed = 0 → o2.seed = 1 →
      (∀ x y z : ℚ, noise3D (mkPerlinPattern o1).permutations x y z =
        noise3D (mkPerlinPattern o2).permutations x y z) ∧
      (o1 = { o2 with seed := 0 } → ∀ ctx : PatternContext,
        perlinGenerate (mkPerlinPattern o1) ctx = perlinGenerate (mkPerlinPattern o2) ctx)) := by
  have hseed : seedInit 0 = seedInit 1 := by
    simp [seedInit]
  have htable : generatePermutations 0 = generatePermutations 1 := by
    unfold generatePermutations
    rw [hseed]
  refine ⟨hseed, fun k => by rw [hseed], htable, ?_⟩
  intro o1 o2 h1 h2
  have hperm : (mkPerlinPattern o1).permutations = (mkPerlinPattern o2).permutations := by
    unfold mkPerlinPattern
    rw [h1, h2]
    exact htable
  refine ⟨fun x y z => by rw [hperm], fun he ctx => ?_⟩
  refine perlinGenerate_congr _ _ ?_ ?_ ?_ ?_ ?_ hperm ctx <;> (rw [he]; rfl)

/-- Witness for claim C10: two default-option patterns with seeds 0
and 1. -/
theorem seed_zero_one_equiv_witness :
    defaultPerlinOptions.seed = 0 ∧
    ({ defaultPerlinOptions with seed := 1 } : PerlinNoisePatternOptions).seed = 1 ∧
    (∀ ctx : PatternContext, perlinGenerate (mkPerlinPattern defaultPerlinOptions) ctx =
      perlinGenerate (mkPerlinPattern { defaultPerlinOptions with seed := 1 }) ctx) :=
  ⟨rfl, rfl,
    (seed_zero_one_equiv.2.2.2 defaultPerlinOptions { defaultPerlinOptions with seed := 1 }
      rfl rfl).2 rfl⟩

/-- Claim C8 (confirmed): region computation is idempotent — with the
measure function, options, glyph set, and canvas size unchanged, a
second `_calculateRegion` call returns a bit-identical `RenderRegion`
in every field, and leaves the coordinator state exactly where the
first call left it (the only state the first call touches is the lazy
creation of the temp canvas). -/
theorem calcRegion_idempotent (measure : ℚ → String → String → TextMetrics)
    (s : CoordState) :
    (calcRegionStep measure (calcRegionStep measure s).2).1 = (calcRegionStep measure s).1 ∧
    (calcRegionStep measure (calcRegionStep measure s).2).2 = (calcRegionStep measure s).2 :=
  ⟨rfl, rfl⟩

/-- Claim C3 (confirmed): for a rain pattern bound to a region with 50
columns and `rainDensity = 0.9`, a single `update()` — from any prior
state, with any context and any values of the random draws — leaves
exactly `floor(50 × 0.9) = 45` live drops, and preserves the bound
region, so the invariant holds after every call of any update sequence. -/
theorem rainUpdate_dropCount (s : RainState) (ctx : PatternContext) (rs : ℕ → ℚ) (k : ℕ)
    (r : RenderRegion) (hr : s.region = some r) (hcols : r.columns = 50)
    (hdens : s.options.rainDensity = 9/10) :
    ((rainUpdate s ctx rs k).1).rainDrops.length = 45 ∧
    ((rainUpdate s ctx rs k).1).region = some r := by
  have ht : jsFloor ((r.columns : ℚ) * s.options.rainDensity) = 45 := by
    rw [hcols, hdens, jsFloor_eq]
    rw [show ((50 : ℤ) : ℚ) * (9 / 10) = ((45 : ℤ) : ℚ) by norm_num]
    exact Int.floor_intCast 45
  simp only [rainUpdate, hr]
  constructor
  · rw [maintainRainDensity_length]
    · rw [ht]
      rfl
    · rw [ht]
      norm_num
  · trivial

/-- Length of a row-major double loop. -/
theorem length_flatMap_map {α : Type} (n m : ℕ) (g : ℕ → ℕ → α) :
    ((List.range n).flatMap (fun i => (List.range m).map (g i))).length = n * m := by
  induction n with
  | zero => simp
  | succ n ih =>
      rw [List.range_succ, List.flatMap_append, List.length_append, ih]
      simp [Nat.succ_mul]

/-- Claim C5 (amended): behaviour of the generators on an empty glyph
set. The Perlin and dummy generators return the empty character list;
the static noise generator instead emits one fallback space glyph per
cell of the region (its `characters[i] || ' '`); rain drops created
under an empty glyph set carry only undefined glyphs, and every
character the rain generator then emits for such drops has an undefined
glyph. No generator throws: the out-of-range indexing yields
`undefined`/fallback values. -/
theorem emptyGlyphSet_behavior :
    (∀ p : PerlinState, p.options.characters = [] →
      ∀ ctx : PatternContext, perlinGenerate p ctx = []) ∧
    (∀ ctx : PatternContext, dummyGenerate ctx = []) ∧
    (∀ (opts : StaticNoisePatternOptions) (ctx : PatternContext), opts.characters = [] →
      (staticGenerate opts ctx).length =
        (intRange ctx.region.startRow ctx.region.endRow).length *
          (intRange ctx.region.startColumn ctx.region.endColumn).length ∧
      ∀ c ∈ staticGenerate opts ctx, c.char = some " ") ∧
    (∀ (opts : RainPatternOptions) (rs : ℕ → ℚ) (k : ℕ) (column : ℤ) (tme : ℚ),
      opts.characters = [] →
      ∀ g ∈ (createRainDrop opts rs k column tme).1.characters, g = none) ∧
    (∀ (opts : RainPatternOptions) (r : RenderRegion) (drop : RainDrop),
      (∀ g ∈ drop.characters, g = none) →
      ∀ c ∈ renderRainDrop opts r drop, c.char = none) := by
  refine ⟨?_, fun _ => rfl, ?_, ?_, ?_⟩
  · intro p hp ctx
    unfold perlinGenerate
    rw [hp]
    rfl
  · intro opts ctx hc
    constructor
    · unfold staticGenerate
      exact length_flatMap_map _ _ _
    · intro c hc2
      unfold staticGenerate at hc2
      simp only [List.mem_flatMap, List.mem_map, List.mem_range] at hc2
      obtain ⟨i, _, j, _, rfl⟩ := hc2
      rw [hc]
      rfl
  · intro opts rs k column tme hc g hg
    unfold createRainDrop at hg
    simp only [List.mem_map, List.mem_range] at hg
    obtain ⟨t, _, rfl⟩ := hg
    rw [hc]
    rfl
  · intro opts r drop hd c hcmem
    unfold renderRainDrop at hcmem
    simp only [List.mem_filterMap, List.mem_range] at hcmem
    obtain ⟨i, _, hsome⟩ := hcmem
    split_ifs at hsome
    all_goals
      obtain rfl := (Option.some.inj hsome).symm
      show (drop.characters.get? i).join = none
      cases hq : drop.characters.get? i with
      | none => rfl
      | some g =>
          rw [hd g (List.get?_mem hq)]
          rfl

/-- Explicit form of `render` for a non-animating coordinator. -/
theorem coordRender_not_animated_eq (gen : PatternContext → List CharacterData)
    (s : CoordState) (t : ℚ) (h : s.options.animated = false) :
    coordRender gen s t =
      if hashList (gen (nonAnimatedCtx s t)) = s.lastHash ∧ s.isDirty = false ∧
          s.patternDirty = false
        then ({ s with lastTime := t, mouseClicked := false }, false)
        else ({ s with
                  lastTime := t
                  mouseClicked := false
                  isDirty := false
                  patternDirty := false
                  lastHash := hashList (gen (nonAnimatedCtx s t))
                  drawCount := s.drawCount + 1 }, true) := by
  unfold coordRender nonAnimatedCtx
  rw [h]
  rfl

/-- Claim C6 (amended): redraw suppression. For a non-animating
coordinator whose active pattern is a deterministic function of the
animation time, region, mouse position, animation flag and speed (as
the Perlin, static, and dummy patterns are), calling `render` twice with
the same timestamp performs at most one backend clear+render: the second
call never draws — its hash matches the stored hash and both dirty flags
were cleared — and the pair draws exactly once iff the first call drew
(dirty state or changed hash). A coordinator state whose previous frame
already matches (hash equal, flags clear) draws zero times, so "exactly
one" does not hold for every state. -/
theorem coordRender_twice (gen : PatternContext → List CharacterData)
    (hg : ∀ c1 c2 : PatternContext, c1.animationTime = c2.animationTime →
      c1.region = c2.region → c1.mouseX = c2.mouseX → c1.mouseY = c2.mouseY →
      c1.isAnimating = c2.isAnimating → c1.animationSpeed = c2.animationSpeed →
      gen c1 = gen c2)
    (s : CoordState) (t : ℚ) (hanim : s.options.animated = false) :
    (coordRender gen (coordRender gen s t).1 t).2 = false ∧
    (coordRender gen (coordRender gen s t).1 t).1.drawCount =
      s.drawCount + (if (coordRender gen s t).2 then 1 else 0) := by
  have e1 := coordRender_not_animated_eq gen s t hanim
  by_cases hcond : hashList (gen (nonAnimatedCtx s t)) = s.lastHash ∧ s.isDirty = false ∧
      s.patternDirty = false
  · rw [if_pos hcond] at e1
    rw [e1]
    have hchars : gen (nonAnimatedCtx ({ s with lastTime := t, mouseClicked := false }) t) =
        gen (nonAnimatedCtx s t) :=
      hg _ _ rfl rfl rfl rfl rfl rfl
    have e2 := coordRender_not_animated_eq gen
      ({ s with lastTime := t, mouseClicked := false }) t hanim
    rw [hchars] at e2
    rw [if_pos ⟨hcond.1, hcond.2.1, hcond.2.2⟩] at e2
    rw [e2]
    simp
  · rw [if_neg hcond] at e1
    rw [e1]
    have hchars : gen (nonAnimatedCtx ({ s with
        lastTime := t
        mouseClicked := false
        isDirty := false
        patternDirty := false
        lastHash := hashList (gen (nonAnimatedCtx s t))
        drawCount := s.drawCount + 1 }) t) = gen (nonAnimatedCtx s t) :=
      hg _ _ rfl rfl rfl rfl rfl rfl
    have e2 := coordRender_not_animated_eq gen
      ({ s with
        lastTime := t
        mouseClicked := false
        isDirty := false
        patternDirty := false
        lastHash := hashList (gen (nonAnimatedCtx s t))
        drawCount := s.drawCount + 1 }) t hanim
    rw [hchars] at e2
    rw [if_pos ⟨rfl, rfl, rfl⟩] at e2
    rw [e2]
    simp

/-- Claim C7 (amended): `setOptions` with a changed option while not
animating merges the options, recomputes the region against the merged
options, reinitializes the generator against that region, and marks the
coordinator dirty — but performs no immediate backend render; the dirty
flag instead forces the next `render` call to draw. (`resize`, by
contrast, force-renders when not animating.) -/
theorem coordSetOptions_behavior (measure : ℚ → String → String → TextMetrics)
    (s : CoordState) (p : ASCIIRendererOptionsPatch) (now : ℚ)
    (hna : (mergeOptions s.options p).animated = false)
    (hid : s.animationId = none)
    (hch : mergeOptions s.options p ≠ s.options) :
    (coordSetOptions measure s p now).drawCount = s.drawCount ∧
    (coordSetOptions measure s p now).isDirty = true ∧
    (coordSetOptions measure s p now).options = mergeOptions s.options p ∧
    (coordSetOptions measure s p now).region =
      calculateRegion measure (mergeOptions s.options p) s.patternChars
        s.canvasWidth s.canvasHeight ∧
    ∀ (gen : PatternContext → List CharacterData) (t : ℚ),
      (coordRender gen (coordSetOptions measure s p now) t).2 = true := by
  have hdirty : (coordSetOptions measure s p now).isDirty = true := by
    simp [coordSetOptions, hna, hid, hasOptionsChanged, hch]
  have hanim2 : (coordSetOptions measure s p now).options.animated = false := by
    simp [coordSetOptions, hna, hid]
  refine ⟨?_, hdirty, ?_, ?_, ?_⟩
  · simp [coordSetOptions, hna, hid]
  · simp [coordSetOptions, hna, hid]
  · simp [coordSetOptions, hna, hid]
  · intro gen t
    have hne : ¬(hashList (gen (nonAnimatedCtx (coordSetOptions measure s p now) t)) =
        (coordSetOptions measure s p now).lastHash ∧
        (coordSetOptions measure s p now).isDirty = false ∧
        (coordSetOptions measure s p now).patternDirty = false) := by
      intro hcontra
      rw [hdirty] at hcontra
      exact absurd hcontra.2.1 (by simp)
    rw [coordRender_not_animated_eq gen _ t hanim2, if_neg hne]

/-! ## Concrete evaluations
`Rat` arithmetic is made unfoldable in this scope so that `decide` can
evaluate the model on concrete inputs. -/

section ConcreteEvaluation

attribute [local semireducible] Rat.mul Rat.add Rat.sub Rat.inv

set_option maxRecDepth 100000

/-- The seed-0 permutation table evaluates to the literal table. -/
theorem permTable0_spec : generatePermutations 0 = permTable0 := by decide

/-- Claim C1 (counterexample): a concrete option combination with
non-negative parameters (seed 0, octaves 1, persistence 1/2,
lacunarity 2) and the concrete sample point
`(x, y, time) = (11 + 29/64, 190 + 29/64, 214 + 29/64)` on which
`_fractalNoise` exceeds 1 (it equals ≈ 1.01571), so fractal noise is
not always within `[-1, 1]`. -/
theorem fractalNoise_exceeds_one :
    1 < fractalNoise (generatePermutations 0) (1/2) 2 1 (733/64) (12189/64) (13725/64) := by
  rw [permTable0_spec]
  decide

/-- Claim C1 (amended): fractal noise equals the octave-sum divided by
the amplitude-sum, and for non-negative persistence it always lies in
`[-2, 2]` (but, by `fractalNoise_exceeds_one`, not always in `[-1, 1]`). -/
theorem fractalNoise_quotient_bounded (perm : List ℕ) (pers lac : ℚ) (octaves : ℕ)
    (x y time : ℚ) (hp : 0 ≤ pers) :
    fractalNoise perm pers lac octaves x y time =
      octaveSum perm pers lac octaves x y time / amplitudeSum pers octaves ∧
    |fractalNoise perm pers lac octaves x y time| ≤ 2 :=
  ⟨fractalNoise_eq_sums perm pers lac octaves x y time,
   fractalNoise_abs_le hp perm lac octaves x y time⟩

/-- Witness for claim C1 (amended) at a concrete configuration. -/
theorem fractalNoise_quotient_bounded_witness :
    (0 : ℚ) ≤ 1/2 ∧
    (fractalNoise [] (1/2) 2 2 3 5 7 = octaveSum [] (1/2) 2 2 3 5 7 / amplitudeSum (1/2) 2 ∧
     |fractalNoise [] (1/2) 2 2 3 5 7| ≤ 2) :=
  ⟨by norm_num, fractalNoise_quotient_bounded [] (1/2) 2 2 3 5 7 (by norm_num)⟩

theorem scenarioPerlin_eq : scenarioPerlin = scenarioPerlinLit := by
  unfold scenarioPerlin scenarioPerlinLit mkPerlinPattern
  rw [show scenarioNoiseOptions.seed = 0 from rfl, permTable0_spec]

/-- Claim C4 (counterexample): the scenario `generate()` returns 15
CharacterData entries, not 8 — the row/column loops are inclusive of
`endRow = rows - padding` and `endColumn = columns - padding`, so a
`columns = 4, rows = 2` region yields `(2+1) × (4+1)` cells. -/
theorem scenarioGenerate_length :
    scenarioRegion.columns = 4 ∧ scenarioRegion.rows = 2 ∧
    (perlinGenerate scenarioPerlin scenarioCtx).length = 15 ∧
    (perlinGenerate scenarioPerlin scenarioCtx).length ≠ 8 := by
  rw [scenarioPerlin_eq]
  decide

/-- Claim C4 (amended): the scenario `generate()` returns exactly 15
entries — one per cell of the inclusive ranges — each with glyph `'#'`
(which is in the configured set `{'.', '#'}`), `x = column × 10` and
`y = row × 10`, and opacity 1/2 (the seed-0 noise vanishes at integer
sample coordinates with `animationTime = 0`). -/
theorem scenarioGenerate_eq :
    perlinGenerate scenarioPerlin scenarioCtx =
      [{ x := 0, y := 0, char := some "#", opacity := some (1/2) },
       { x := 10, y := 0, char := some "#", opacity := some (1/2) },
       { x := 20, y := 0, char := some "#", opacity := some (1/2) },
       { x := 30, y := 0, char := some "#", opacity := some (1/2) },
       { x := 40, y := 0, char := some "#", opacity := some (1/2) },
       { x := 0, y := 10, char := some "#", opacity := some (1/2) },
       { x := 10, y := 10, char := some "#", opacity := some (1/2) },
       { x := 20, y := 10, char := some "#", opacity := some (1/2) },
       { x := 30, y := 10, char := some "#", opacity := some (1/2) },
       { x := 40, y := 10, char := some "#", opacity := some (1/2) },
       { x := 0, y := 20, char := some "#", opacity := some (1/2) },
       { x := 10, y := 20, char := some "#", opacity := some (1/2) },
       { x := 20, y := 20, char := some "#", opacity := some (1/2) },
       { x := 30, y := 20, char := some "#", opacity := some (1/2) },
       { x := 40, y := 20, char := some "#", opacity := some (1/2) }] := by
  rw [scenarioPerlin_eq]
  decide

/-- Claim C5 (counterexample): the static noise generator with an empty
glyph set does NOT return an empty character list — over a 1×1 region it
returns one entry whose glyph is the `|| ' '` fallback space. -/
theorem staticGenerate_empty_not_nil :
    staticGenerate { characters := [], animationSpeed := 1, seed := 0 } sampleCtx1 ≠ [] ∧
    staticGenerate { characters := [], animationSpeed := 1, seed := 0 } sampleCtx1 =
      [{ x := 0, y := 0, char := some " " }] := by
  decide

/-- Witness for claim C5 (amended): the Perlin generator with an empty
glyph set returns the empty list on the sample context. -/
theorem emptyGlyphSet_behavior_witness :
    ({ defaultPerlinOptions with characters := [] } :
        PerlinNoisePatternOptions).characters = [] ∧
    perlinGenerate (mkPerlinPattern { defaultPerlinOptions with characters := [] })
      sampleCtx1 = [] :=
  ⟨rfl, emptyGlyphSet_behavior.1 _ rfl sampleCtx1⟩

/-- Witness for claim C3 at the concrete 50-column, density-0.9 state. -/
theorem rainUpdate_dropCount_witness :
    sampleRainState.region = some sampleRegion50 ∧ sampleRegion50.columns = 50 ∧
    sampleRainState.options.rainDensity = 9/10 ∧
    ((rainUpdate sampleRainState sampleRainCtx (fun _ => 1/2) 0).1).rainDrops.length = 45 :=
  ⟨rfl, rfl, rfl,
   (rainUpdate_dropCount sampleRainState sampleRainCtx (fun _ => 1/2) 0 sampleRegion50
     rfl rfl rfl).1⟩

/-- Claim C6 (counterexample): from the settled, non-animating state,
two consecutive `render` calls with the same timestamp perform ZERO
backend clear+render calls — not exactly one: both calls are skipped
because the hash is unchanged and no dirty flag is set. -/
theorem coordRender_twice_zero_draws :
    settledCoordState.options.animated = false ∧
    (coordRender dummyGenerate settledCoordState 5).2 = false ∧
    (coordRender dummyGenerate (coordRender dummyGenerate settledCoordState 5).1 5).2 = false ∧
    (coordRender dummyGenerate (coordRender dummyGenerate settledCoordState 5).1 5).1.drawCount =
      settledCoordState.drawCount := by
  decide

/-- Witness for claim C6 (amended) at the settled dummy-pattern state. -/
theorem coordRender_twice_witness :
    settledCoordState.options.animated = false ∧
    ((coordRender dummyGenerate (coordRender dummyGenerate settledCoordState 5).1 5).2 = false ∧
     (coordRender dummyGenerate (coordRender dummyGenerate settledCoordState 5).1 5).1.drawCount =
       settledCoordState.drawCount +
         (if (coordRender dummyGenerate settledCoordState 5).2 then 1 else 0)) :=
  ⟨by decide,
   coordRender_twice dummyGenerate (fun _ _ _ _ _ _ _ _ => rfl) settledCoordState 5 (by decide)⟩

/-- Claim C7 (counterexample): `setOptions` with a changed background
color on the settled, non-animating coordinator performs ZERO backend
renders before the next explicit call — not exactly one immediate
render. -/
theorem coordSetOptions_no_render :
    settledCoordState.options.animated = false ∧
    (mergeOptions settledCoordState.options bgPatch).backgroundColor = "#000" ∧
    (coordSetOptions sampleMeasure settledCoordState bgPatch 5).drawCount =
      settledCoordState.drawCount := by
  decide

/-- Witness for claim C7 (amended) at the settled state and the
background-color patch. -/
theorem coordSetOptions_behavior_witness :
    (coordSetOptions sampleMeasure settledCoordState bgPatch 5).drawCount =
      settledCoordState.drawCount ∧
    (coordSetOptions sampleMeasure settledCoordState bgPatch 5).isDirty = true :=
  ⟨(coordSetOptions_behavior sampleMeasure settledCoordState bgPatch 5 (by decide) (by decide)
      (by decide)).1,
   (coordSetOptions_behavior sampleMeasure settledCoordState bgPatch 5 (by decide) (by decide)
      (by decide)).2.1⟩

/-- Claim C9 (counterexample): `_hash` is NOT order-sensitive — it is
impossible to find two permuted lists with different hashes, because the
XOR fold is invariant under permutation. -/
theorem hash_not_order_sensitive :
    ¬ ∃ l1 l2 : List CharacterData, l1.Perm l2 ∧ hashList l1 ≠ hashList l2 := by
  rintro ⟨l1, l2, hp, hne⟩
  exact hne (hashList_perm hp)

/-- Claim C9 (amended): the hash is order-INSENSITIVE (permutation
invariant), and position, glyph code point, color, opacity, scale and
rotation each contribute to the hash value (changing any one of them
alone changes the hash of a singleton list). -/
theorem hash_perm_invariant_fields_contribute :
    (∀ l1 l2 : List CharacterData, l1.Perm l2 → hashList l1 = hashList l2) ∧
    hashList [hashEntryA] ≠ hashList [{ hashEntryA with x := 1 }] ∧
    hashList [hashEntryA] ≠ hashList [{ hashEntryA with y := 1 }] ∧
    hashList [hashEntryA] ≠ hashList [{ hashEntryA with char := some "B" }] ∧
    hashList [hashEntryA] ≠ hashList [{ hashEntryA with color := some "r" }] ∧
    hashList [hashEntryA] ≠ hashList [{ hashEntryA with opacity := some (1/2) }] ∧
    hashList [hashEntryA] ≠ hashList [{ hashEntryA with scale := some (1/2) }] ∧
    hashList [hashEntryA] ≠ hashList [{ hashEntryA with rotation := some (1/2) }] :=
  ⟨fun _ _ hp => hashList_perm hp, by decide, by decide, by decide, by decide, by decide,
   by decide, by decide⟩

/-- Witness for claim C9 (amended): the hash of a two-element list does
not change under swapping. -/
theorem hash_perm_invariant_witness :
    hashList [hashEntryA, hashEntryB] = hashList [hashEntryB, hashEntryA] :=
  hash_perm_invariant_fields_contribute.1 _ _ (List.Perm.swap hashEntryB hashEntryA [])

end ConcreteEvaluation

end AsciiGround
